import Mathlib

/-!
Shallow embedding of the WaterFeature8 repository (waterFeatLib.py and
WFaws.py) and proofs about its specification claims.

Modelling conventions:
* Python floats are modelled by `Rat`; `time.time()` instants are `Rat`.
* Python `str.strip()` and `str.split(',')` are modelled by `pyStrip`
  and `pySplitComma`, structurally recursive over the character list
  (both agree with Python on the empty string: one empty field).
* `float(tok)` on a stripped token is modelled by `pyFloat?`, which accepts
  an optional sign, a decimal mantissa with optional fraction, and an
  optional signed exponent; CPython extras (inf, nan, digit underscores)
  are not modelled, and no claim depends on them.
* Fallible Python calls (json decode, serial write, attribute access in a
  try block) are modelled with `Except String`.
-/

/-- Numeric value of a list of decimal digit characters, most significant
first (helper for the float-token model). -/
def digitsToNat (cs : List Char) : Nat :=
  cs.foldl (fun a c => a * 10 + (c.toNat - 48)) 0

/-- Core of the CPython float() model: parses digits, an optional
fractional part and an optional exponent from an unsigned token. -/
def pyFloatCore (cs : List Char) : Option Rat :=
  let p1 := cs.span Char.isDigit
  let ip := p1.1
  let p2 :=
    match p1.2 with
    | '.' :: r => r.span Char.isDigit
    | _ => ([], p1.2)
  let fp := p2.1
  if ip.isEmpty && fp.isEmpty then none
  else
    let mant : Rat := (digitsToNat ip : Rat) + (digitsToNat fp : Rat) / ((10 : Rat) ^ fp.length)
    match p2.2 with
    | [] => some mant
    | e :: r =>
      if e = 'e' || e = 'E' then
        let sp :=
          match r with
          | '+' :: t => (true, t)
          | '-' :: t => (false, t)
          | _ => (true, r)
        let p3 := sp.2.span Char.isDigit
        if p3.1.isEmpty || !p3.2.isEmpty then none
        else
          let ex := digitsToNat p3.1
          some (if sp.1 then mant * (10 : Rat) ^ ex else mant / (10 : Rat) ^ ex)
      else none

/-- Model of Python float(s) for an already-stripped token s: an optional
leading sign followed by the unsigned core; returns none when CPython
float() would raise ValueError. -/
def pyFloat? (s : String) : Option Rat :=
  match s.toList with
  | '+' :: r => pyFloatCore r
  | '-' :: r => (pyFloatCore r).map (fun q => -q)
  | cs => pyFloatCore cs

/-- Python whitespace for str.strip(): space, tab, newline, carriage
return, vertical tab and form feed. -/
def isPySpace (c : Char) : Bool :=
  c == ' ' || c == '\t' || c == '\n' || c == '\r' || c == '\x0b' || c == '\x0c'

/-- Model of Python str.strip(): drops leading and trailing whitespace
characters. -/
def pyStrip (s : String) : String :=
  String.mk
    (((s.toList.dropWhile isPySpace).reverse.dropWhile isPySpace).reverse)

/-- Splits a character list at every comma; the comma-free chunks,
including empty ones, in order.  Mirrors Python str.split(',') on the
character level. -/
def splitCommaChars : List Char -> List (List Char)
  | [] => [[]]
  | c :: rest =>
    let r := splitCommaChars rest
    if c == ',' then [] :: r
    else
      match r with
      | [] => [[c]]
      | h :: t => (c :: h) :: t

/-- Model of Python str.split(','): every comma is a field boundary and
empty fields are kept, so the result always has one more entry than the
string has commas. -/
def pySplitComma (s : String) : List String :=
  (splitCommaChars s.toList).map String.mk

/-- Channel labels, from WaterFeature8.variable_labels
(waterFeatLib.py line 36). -/
def variable_labels : List String :=
  ["EC", "RTD_EC", "pH", "RTD_pH", "DO", "RTD_DO", "ORP"]

/-- Channel units, from WaterFeature8.variable_units
(waterFeatLib.py line 37). -/
def variable_units : List String :=
  ["μS/cm", "°C", "pH", "°C", "mg/L", "°C", "mV"]

/-- Channel descriptions, from WaterFeature8.variable_descriptions
(waterFeatLib.py lines 38-46). -/
def variable_descriptions : List String :=
  ["Electrical Conductivity",
   "Temperature (EC compensation)",
   "pH Level",
   "Temperature (pH compensation)",
   "Dissolved Oxygen",
   "Temperature (DO compensation)",
   "Oxidation-Reduction Potential"]

/-- One channel entry of the parsed variables dict: the inner dict built at
waterFeatLib.py lines 103-108 and 110-115. -/
structure Measurement where
  value : Rat
  unit : String
  description : String
  raw : String
  deriving DecidableEq, Repr

/-- The parsed_data dict built at waterFeatLib.py lines 117-124.  The
variables dict keeps insertion order, modelled as an association list. -/
structure TelemetryRecord where
  device_timestamp : String
  local_timestamp : String
  epoch_timestamp : Int
  vars : List (String × Measurement)
  device_id : String
  raw_line : String
  deriving DecidableEq, Repr

/-- One iteration of the loop body at waterFeatLib.py lines 98-115: trims
the token, converts it to a number (0.0 for an empty or malformed token,
per lines 102 and 109-115) and attaches the statically bound unit and
description of channel i. -/
def toMeasurement (i : Nat) (value : String) : String × Measurement :=
  let tok := pyStrip value
  let v : Rat := if tok = "" then 0 else (pyFloat? tok).getD 0
  (variable_labels.getD i "",
   { value := v
     unit := variable_units.getD i ""
     description := variable_descriptions.getD i ""
     raw := tok })

/-- WaterFeature8.parse_data_line (waterFeatLib.py lines 77-130).  The
local timestamp and epoch count captured at parse time are passed in as
nowIso and nowEpoch.  The i < len(self.variable_labels) guard of line 99
is the take of the channel count.  The outer try/except of lines 87/128
never fires in this model because every modelled operation is total. -/
def parse_data_line (nowIso : String) (nowEpoch : Int) (line : String) :
    Option TelemetryRecord :=
  let parts := pySplitComma (pyStrip line)
  if parts.length < 2 then none
  else
    some
      { device_timestamp := parts.getD 0 ""
        local_timestamp := nowIso
        epoch_timestamp := nowEpoch
        vars :=
          ((parts.drop 1).take variable_labels.length).enum.map
            (fun p => toMeasurement p.1 p.2)
        device_id := "WaterFeature8"
        raw_line := pyStrip line }

/-- State carried across iterations of WaterFeature8._read_loop: the
last_sample_time local of line 205 (initially 0) and the latest_data slot
of line 32 (initially None). -/
structure LoopState where
  last_sample_time : Rat
  latest_data : Option TelemetryRecord
  deriving DecidableEq, Repr

/-- Result of one loop iteration: the successor state, plus the record
handed to every registered callback at lines 226-228 (none when no
callback was invoked). -/
structure StepResult where
  state : LoopState
  published : Option TelemetryRecord
  deriving DecidableEq, Repr

/-- Initial loop state: last_sample_time = 0 (waterFeatLib.py line 205)
and an empty latest_data slot (line 32). -/
def init_loop_state : LoopState :=
  { last_sample_time := 0, latest_data := none }

/-- One iteration of the body of WaterFeature8._read_loop
(waterFeatLib.py lines 209-232) in which a line raw_line was read at
wall-clock instant current_time.  Blank lines are skipped (line 212);
otherwise the sampling gate of line 217 applies: when at least 60 seconds
have elapsed since last_sample_time the line is parsed, a successful
parse replaces latest_data (line 223) and is fanned out to the callbacks
(line 228), and last_sample_time is set to current_time (line 232,
executed on gate pass whether or not the parse succeeded); when the gate
fails nothing at all happens to the state. -/
def read_loop_step (st : LoopState) (raw_line : String) (current_time : Rat)
    (nowIso : String) (nowEpoch : Int) : StepResult :=
  if pyStrip raw_line = "" then { state := st, published := none }
  else if 60 ≤ current_time - st.last_sample_time then
    match parse_data_line nowIso nowEpoch raw_line with
    | some pd =>
        { state := { last_sample_time := current_time, latest_data := some pd }
          published := some pd }
    | none =>
        { state := { last_sample_time := current_time, latest_data := st.latest_data }
          published := none }
  else { state := st, published := none }

/-- Serial connection model for send_command: the is_open flag and the
outcome of transport writes, where an error models serial.SerialException
raised by write. -/
structure SerialConn where
  is_open : Bool
  write_result : String → Except String Unit

/-- WaterFeature8.send_command (waterFeatLib.py lines 244-264).  Returns
the bool result together with the exact text handed to the transport
write, none when no write was attempted.  A missing connection
(self.serial_conn is None) is the none case of conn. -/
def send_command (conn : Option SerialConn) (command : String) :
    Bool × Option String :=
  match conn with
  | none => (false, none)
  | some c =>
    if !c.is_open then (false, none)
    else
      let payload := command ++ "\n"
      match c.write_result payload with
      | .ok _ => (true, some payload)
      | .error _ => (false, some payload)

/-- One entry of the channel catalogue in get_device_info
(waterFeatLib.py lines 169-173). -/
structure VariableInfo where
  name : String
  unit : String
  description : String
  deriving DecidableEq, Repr

/-- The dict returned by WaterFeature8.get_device_info
(waterFeatLib.py lines 156-181). -/
structure DeviceInfo where
  device_id : String
  model : String
  port : String
  baudrate : Nat
  channel_catalogue : List VariableInfo
  status : String
  deriving DecidableEq, Repr

/-- WaterFeature8.get_device_info (waterFeatLib.py lines 156-181); the
derived status reflects whether the serial transport is open. -/
def get_device_info (port : String) (baudrate : Nat) (connOpen : Bool) :
    DeviceInfo :=
  { device_id := "WaterFeature8"
    model := "WaterFeature8"
    port := port
    baudrate := baudrate
    channel_catalogue :=
      (variable_labels.zip (variable_units.zip variable_descriptions)).map
        (fun p => { name := p.1, unit := p.2.1, description := p.2.2 })
    status := if connOpen then "connected" else "disconnected" }

/-- The inbound command dict of WFaws.py handle_command: the type,
command_id and device_command keys, each possibly absent (Python
dict.get with a default). -/
structure CommandEnvelope where
  type? : Option String
  command_id? : Option String
  device_command? : Option String
  deriving DecidableEq, Repr

/-- The data payload attached to a response by handle_command: absent for
the base response, the latest reading for get_reading (WFaws.py line
146), or the device_info/latest_reading pair for get_status (lines
132-135). -/
inductive RespData where
  | absent
  | reading (r : TelemetryRecord)
  | statusData (info : DeviceInfo) (latest : Option TelemetryRecord)
  deriving DecidableEq, Repr

/-- The response dict built by handle_command (WFaws.py lines 116-122
plus the branch updates). -/
structure ResponseEnvelope where
  command_id : String
  device_id : String
  timestamp : String
  status : String
  message : String
  data : RespData
  deriving DecidableEq, Repr

/-- Mutable state of the WaterFeature8IoT bridge that the claims touch:
the device_id (WFaws.py line 29), the connected_to_aws flag (line 44)
and the latest_reading slot (line 48). -/
structure BridgeState where
  device_id : String
  connected_to_aws : Bool
  latest_reading : Option TelemetryRecord
  deriving DecidableEq, Repr

/-- Device-session operations invoked from inside handle_command's try
block.  They are Except-valued because the underlying Python calls can
raise; an error makes the enclosing try/except of WFaws.py lines 112/172
fire. -/
structure SessionOps where
  dev_info : Except String DeviceInfo
  dev_send : String → Except String Bool

/-- WaterFeature8IoT.get_latest_data (WFaws.py lines 184-187): a copy of
the latest_reading slot, or None when the slot is empty.  At this value
level the copy is the record itself; the aliasing behaviour of the
shallow dict copy is studied separately in the heap model below. -/
def get_latest_data (st : BridgeState) : Option TelemetryRecord :=
  st.latest_reading

/-- The initial response dict of WFaws.py lines 116-122: status error,
message Unknown command, no data key. -/
def base_response (device_id cmd_id nowIso : String) : ResponseEnvelope :=
  { command_id := cmd_id
    device_id := device_id
    timestamp := nowIso
    status := "error"
    message := "Unknown command"
    data := RespData.absent }

/-- body of the try block of WaterFeature8IoT.handle_command (WFaws.py
lines 113-170): dispatch on the command type and build the response that
line 170 publishes.  An error value models an exception escaping the
body, to be caught at line 172. -/
def handle_command_core (ops : SessionOps) (st : BridgeState)
    (nowIso : String) (cmd : CommandEnvelope) : Except String ResponseEnvelope :=
  let cmd_type := cmd.type?.getD ""
  let cmd_id := cmd.command_id?.getD "unknown"
  let response := base_response st.device_id cmd_id nowIso
  if cmd_type = "get_status" then
    match ops.dev_info with
    | .error e => .error e
    | .ok info =>
      .ok { response with
              status := "success"
              message := "Device status retrieved"
              data := RespData.statusData info (get_latest_data st) }
  else if cmd_type = "get_reading" then
    match get_latest_data st with
    | some d =>
        .ok { response with
                status := "success"
                message := "Latest reading retrieved"
                data := RespData.reading d }
    | none =>
        .ok { response with
                status := "error"
                message := "No recent data available" }
  else if cmd_type = "send_device_command" then
    let device_cmd := cmd.device_command?.getD ""
    match ops.dev_send device_cmd with
    | .error e => .error e
    | .ok true =>
        .ok { response with
                status := "success"
                message := "Command sent to device: " ++ device_cmd }
    | .ok false =>
        .ok { response with
                status := "error"
                message := "Failed to send command to device" }
  else .ok response

/-- WaterFeature8IoT.handle_command (WFaws.py lines 110-173): the list of
responses published on the response topic while handling one command; the
except clause of line 172 swallows any exception, so an erroring body
publishes nothing. -/
def handle_command (ops : SessionOps) (st : BridgeState)
    (nowIso : String) (cmd : CommandEnvelope) : List ResponseEnvelope :=
  match handle_command_core ops st nowIso cmd with
  | .ok r => [r]
  | .error _ => []

/-- WaterFeature8IoT.on_mqtt_message (WFaws.py lines 92-104): decoded is
the outcome of json.loads on the payload bytes (an error models any
exception raised while decoding); a decodable envelope arriving on the
command topic is dispatched to handle_command, and the except clause of
line 103 turns every escaping exception into no published response. -/
def on_mqtt_message (ops : SessionOps) (st : BridgeState)
    (topic_command : String) (topic : String) (nowIso : String)
    (decoded : Except String CommandEnvelope) : List ResponseEnvelope :=
  match decoded with
  | .error _ => []
  | .ok cmd =>
    if topic = topic_command then handle_command ops st nowIso cmd else []

/-- One channel entry of the wire payload built by publish_telemetry_data
(WFaws.py lines 203-207): value, unit and description only. -/
structure WireMeasurement where
  value : Rat
  unit : String
  description : String
  deriving DecidableEq, Repr

/-- The telemetry wire payload of publish_telemetry_data (WFaws.py lines
193-199). -/
structure TelemetryPayload where
  device_id : String
  timestamp : String
  epoch_timestamp : Int
  device_timestamp : String
  measurements : List (String × WireMeasurement)
  deriving DecidableEq, Repr

/-- WaterFeature8IoT.publish_telemetry_data (WFaws.py lines 189-214):
the payload put on the telemetry topic for a record. -/
def publish_telemetry_data (device_id : String) (data : TelemetryRecord) :
    TelemetryPayload :=
  { device_id := device_id
    timestamp := data.local_timestamp
    epoch_timestamp := data.epoch_timestamp
    device_timestamp := data.device_timestamp
    measurements :=
      data.vars.map
        (fun p =>
          (p.1,
           { value := p.2.value
             unit := p.2.unit
             description := p.2.description })) }

/-- WaterFeature8IoT.data_received_callback (WFaws.py lines 175-182):
stores the record in the latest_reading slot, then publishes it on the
telemetry topic only when connected_to_aws is set; the published payload
(or none) is returned alongside the successor state. -/
def data_received_callback (st : BridgeState) (data : TelemetryRecord) :
    BridgeState × Option TelemetryPayload :=
  let st2 := { st with latest_reading := some data }
  (st2,
   if st.connected_to_aws then some (publish_telemetry_data st.device_id data)
   else none)

/-!
Heap model for the latest-data slot (claim C9).  get_latest_data in
waterFeatLib.py line 154 (and WFaws.py line 187) returns
self.latest_data.copy(), the shallow dict copy: the returned top-level
dict is a fresh object, but its 'variables' entry is the very same inner
dict object as the slot's.  Python strings and ints are immutable, so the
scalar entries are modelled inline; the 'variables' entry is modelled as
an address into a heap of dict objects.
-/

/-- One measurement dict object on the heap (the mutable inner dict of
waterFeatLib.py lines 103-108). -/
structure MeasObj where
  value : Rat
  unit : String
  description : String
  raw : String
  deriving DecidableEq, Repr

/-- One parsed-data dict object on the heap: the scalar entries inline
(immutable Python values) and the 'variables' entry as the address of a
variables dict object. -/
structure RecordObj where
  device_timestamp : String
  local_timestamp : String
  epoch_timestamp : Int
  variablesRef : Nat
  device_id : String
  raw_line : String
  deriving DecidableEq, Repr

/-- The object heap: record dicts, variables dicts (label to measurement
address) and measurement dicts, each addressed by list position. -/
structure PyHeap where
  records : List RecordObj
  varDicts : List (List (String × Nat))
  measObjs : List MeasObj
  deriving DecidableEq, Repr

/-- The latest-data slot together with the heap it points into. -/
structure SlotState where
  heap : PyHeap
  latest_data : Option Nat
  deriving DecidableEq, Repr

/-- Python dict.copy() on a record dict: allocates a fresh top-level dict
with the same entries, in particular the same variablesRef (the shallow
copy of waterFeatLib.py line 154 copies the reference, not the inner
dict). -/
def copy_record (h : PyHeap) (a : Nat) : PyHeap × Nat :=
  match h.records[a]? with
  | some r => ({ h with records := h.records ++ [r] }, h.records.length)
  | none => (h, a)

/-- get_latest_data on the heap model (waterFeatLib.py lines 146-154):
returns the address of a fresh shallow copy of the slot's record, or none
when the slot is empty. -/
def get_latest_data_heap (st : SlotState) : SlotState × Option Nat :=
  match st.latest_data with
  | none => (st, none)
  | some a =>
    let p := copy_record st.heap a
    ({ st with heap := p.1 }, some p.2)

/-- Address of the measurement dict reached from record address recAddr
through its variables dict at channel chan. -/
def lookup_meas (h : PyHeap) (recAddr : Nat) (chan : String) : Option Nat :=
  (h.records[recAddr]?).bind fun r =>
    (h.varDicts[r.variablesRef]?).bind fun d =>
      (d.find? (fun p => p.1 == chan)).map Prod.snd

/-- Mutation of a nested measurement through a record reference: the
Python statement rec['variables'][chan]['value'] = v. -/
def set_nested_value (h : PyHeap) (recAddr : Nat) (chan : String) (v : Rat) :
    PyHeap :=
  match lookup_meas h recAddr chan with
  | none => h
  | some m =>
    match h.measObjs[m]? with
    | none => h
    | some mo => { h with measObjs := h.measObjs.set m { mo with value := v } }

/-- Read of a nested measurement value through a record reference: the
Python expression rec['variables'][chan]['value']. -/
def read_nested_value (h : PyHeap) (recAddr : Nat) (chan : String) : Option Rat :=
  (lookup_meas h recAddr chan).bind fun m =>
    (h.measObjs[m]?).map MeasObj.value

/-- Mutation of a top-level scalar entry of a record dict: the Python
statement rec['device_timestamp'] = s. -/
def set_top_entry (h : PyHeap) (recAddr : Nat) (s : String) : PyHeap :=
  match h.records[recAddr]? with
  | none => h
  | some r =>
    { h with records := h.records.set recAddr { r with device_timestamp := s } }

/-- Structural (deep) view of the record at an address: its scalar
entries together with the fully dereferenced variables mapping; two
records are structurally equal exactly when their views coincide. -/
def record_view (h : PyHeap) (a : Nat) :
    Option (RecordObj × List (String × Option MeasObj)) :=
  (h.records[a]?).map fun r =>
    (r, (h.varDicts.getD r.variablesRef []).map fun p => (p.1, h.measObjs[p.2]?))

/-- Concrete slot state for the C9 analysis: one stored record at address
0 whose variables dict maps pH to a measurement of value 7. -/
def slot_example : SlotState :=
  { heap :=
      { records := [{ device_timestamp := "T0"
                      local_timestamp := "L0"
                      epoch_timestamp := 0
                      variablesRef := 0
                      device_id := "WaterFeature8"
                      raw_line := "T0,7.0" }]
        varDicts := [[("pH", 0)]]
        measObjs := [{ value := 7, unit := "pH", description := "pH Level", raw := "7.0" }] }
    latest_data := some 0 }

/-! Sanity checks of the float-token model. -/

example : (pyFloat? "1.25").isSome = true := by decide
example : pyFloat? "abc" = none := by decide
example : (pyFloat? "-2e1").isSome = true := by decide
example : pyFloat? "" = none := by decide
example : (pyFloat? "1.").isSome = true := by decide
example : pyFloat? "." = none := by decide
example : pyFloat? "1 2" = none := by decide
example : pyFloat? "--3" = none := by decide

/-! Helper lemmas about the acquisition loop and the parser. -/

/-- Splitting the empty string yields one empty field, as in Python. -/
theorem pySplitComma_empty : pySplitComma "" = [""] := rfl

/-- Lines with fewer than two comma-separated fields fail to parse. -/
theorem parse_data_line_short (nowIso : String) (nowEpoch : Int) (line : String)
    (h : (pySplitComma (pyStrip line)).length < 2) :
    parse_data_line nowIso nowEpoch line = none := by
  unfold parse_data_line
  simp only [h, if_true]

/-- Blank lines fail to parse: they split into the single empty field. -/
theorem parse_data_line_blank (nowIso : String) (nowEpoch : Int) (line : String)
    (h : pyStrip line = "") : parse_data_line nowIso nowEpoch line = none := by
  apply parse_data_line_short
  rw [h, pySplitComma_empty]
  decide

/-- Parseable lines are non-blank. -/
theorem trim_ne_empty_of_parse (nowIso : String) (nowEpoch : Int) (line : String)
    (h : (parse_data_line nowIso nowEpoch line).isSome) : pyStrip line ≠ "" := by
  intro hb
  rw [parse_data_line_blank nowIso nowEpoch line hb] at h
  exact Bool.noConfusion h

/-- Loop-step equation: a blank line is skipped entirely. -/
theorem read_loop_step_blank (st : LoopState) (raw_line : String)
    (current_time : Rat) (nowIso : String) (nowEpoch : Int)
    (hb : pyStrip raw_line = "") :
    read_loop_step st raw_line current_time nowIso nowEpoch =
      { state := st, published := none } := by
  unfold read_loop_step
  rw [if_pos hb]

/-- Loop-step equation: a line inside the 60-second window is discarded
with no state change at all. -/
theorem read_loop_step_gated (st : LoopState) (raw_line : String)
    (current_time : Rat) (nowIso : String) (nowEpoch : Int)
    (hg : ¬ 60 ≤ current_time - st.last_sample_time) :
    read_loop_step st raw_line current_time nowIso nowEpoch =
      { state := st, published := none } := by
  unfold read_loop_step
  by_cases hb : pyStrip raw_line = ""
  · rw [if_pos hb]
  · rw [if_neg hb, if_neg hg]

/-- Loop-step equation: a parseable line past the gate is published and
stored, and the gate clock is reset to its arrival time. -/
theorem read_loop_step_accept (st : LoopState) (raw_line : String)
    (current_time : Rat) (nowIso : String) (nowEpoch : Int)
    (pd : TelemetryRecord)
    (hg : 60 ≤ current_time - st.last_sample_time)
    (hp : parse_data_line nowIso nowEpoch raw_line = some pd) :
    read_loop_step st raw_line current_time nowIso nowEpoch =
      { state := { last_sample_time := current_time, latest_data := some pd }
        published := some pd } := by
  have hb : pyStrip raw_line ≠ "" :=
    trim_ne_empty_of_parse nowIso nowEpoch raw_line (by rw [hp]; rfl)
  unfold read_loop_step
  rw [if_neg hb, if_pos hg, hp]

/-- Loop-step equation: an unparseable line past the gate publishes
nothing and leaves the slot alone, but still resets the gate clock. -/
theorem read_loop_step_parsefail (st : LoopState) (raw_line : String)
    (current_time : Rat) (nowIso : String) (nowEpoch : Int)
    (hb : pyStrip raw_line ≠ "")
    (hg : 60 ≤ current_time - st.last_sample_time)
    (hp : parse_data_line nowIso nowEpoch raw_line = none) :
    read_loop_step st raw_line current_time nowIso nowEpoch =
      { state := { last_sample_time := current_time, latest_data := st.latest_data }
        published := none } := by
  unfold read_loop_step
  rw [if_neg hb, if_pos hg, hp]

/-- Loop-step equation: anything published must have passed the gate. -/
theorem gate_of_published (st : LoopState) (raw_line : String)
    (current_time : Rat) (nowIso : String) (nowEpoch : Int)
    (h : ((read_loop_step st raw_line current_time nowIso nowEpoch).published).isSome) :
    60 ≤ current_time - st.last_sample_time := by
  by_contra hg
  rw [read_loop_step_gated st raw_line current_time nowIso nowEpoch hg] at h
  exact Bool.noConfusion h

/-- Token-level parse degradation: a channel token whose stripped form is
empty or fails float conversion produces the 0.0 measurement carrying
the stripped token as raw. -/
theorem toMeasurement_zero (i : Nat) (v : String)
    (hbad : pyFloat? (pyStrip v) = none ∨ pyStrip v = "") :
    toMeasurement i v =
      (variable_labels.getD i "",
       { value := 0
         unit := variable_units.getD i ""
         description := variable_descriptions.getD i ""
         raw := pyStrip v }) := by
  simp only [toMeasurement]
  rcases hbad with hb | hb
  · by_cases ht : pyStrip v = ""
    · rw [if_pos ht]
    · rw [if_neg ht, hb]
      rfl
  · rw [if_pos hb]

/-- Parse equation on lines with at least two fields. -/
theorem parse_data_line_long (nowIso : String) (nowEpoch : Int) (line : String)
    (h : ¬ (pySplitComma (pyStrip line)).length < 2) :
    parse_data_line nowIso nowEpoch line =
      some
        { device_timestamp := (pySplitComma (pyStrip line)).getD 0 ""
          local_timestamp := nowIso
          epoch_timestamp := nowEpoch
          vars :=
            (((pySplitComma (pyStrip line)).drop 1).take variable_labels.length).enum.map
              (fun p => toMeasurement p.1 p.2)
          device_id := "WaterFeature8"
          raw_line := pyStrip line } := by
  unfold parse_data_line
  rw [if_neg h]

/-- C1: a non-blank line is parsed and published only when observed at
least 60 seconds after the previous accepted sample (first conjunct:
publication implies the gate held), every other non-blank line is
silently discarded with no state change (second conjunct), and in the
two-line scenario a first valid line accepted at t1 is published while a
second valid line 10 seconds later is dropped and one 61 seconds later
is published (remaining conjuncts). -/
theorem C1_sampling_gate
    (st : LoopState) (line1 line2 nowIso1 nowIso2 : String) (e1 e2 : Int) (t1 : Rat)
    (h1 : (parse_data_line nowIso1 e1 line1).isSome)
    (h2 : (parse_data_line nowIso2 e2 line2).isSome)
    (hg : 60 ≤ t1 - st.last_sample_time) :
    (∀ (st2 : LoopState) (l : String) (t : Rat) (nI : String) (nE : Int),
        ((read_loop_step st2 l t nI nE).published).isSome →
          60 ≤ t - st2.last_sample_time) ∧
    (∀ (st2 : LoopState) (l : String) (t : Rat) (nI : String) (nE : Int),
        ¬ 60 ≤ t - st2.last_sample_time →
          read_loop_step st2 l t nI nE = { state := st2, published := none }) ∧
    (∃ pd1 pd2 : TelemetryRecord,
      parse_data_line nowIso1 e1 line1 = some pd1 ∧
      parse_data_line nowIso2 e2 line2 = some pd2 ∧
      read_loop_step st line1 t1 nowIso1 e1 =
        { state := { last_sample_time := t1, latest_data := some pd1 }
          published := some pd1 } ∧
      read_loop_step { last_sample_time := t1, latest_data := some pd1 }
          line2 (t1 + 10) nowIso2 e2 =
        { state := { last_sample_time := t1, latest_data := some pd1 }
          published := none } ∧
      read_loop_step { last_sample_time := t1, latest_data := some pd1 }
          line2 (t1 + 61) nowIso2 e2 =
        { state := { last_sample_time := t1 + 61, latest_data := some pd2 }
          published := some pd2 }) := by
  obtain ⟨pd1, hp1⟩ := Option.isSome_iff_exists.mp h1
  obtain ⟨pd2, hp2⟩ := Option.isSome_iff_exists.mp h2
  refine ⟨fun st2 l t nI nE h => gate_of_published st2 l t nI nE h,
          fun st2 l t nI nE hgf => read_loop_step_gated st2 l t nI nE hgf,
          pd1, pd2, hp1, hp2,
          read_loop_step_accept st line1 t1 nowIso1 e1 pd1 hg hp1, ?_, ?_⟩
  · have hlt : ¬ (60 : Rat) ≤ t1 + 10 - t1 := by push_neg; linarith
    exact read_loop_step_gated _ line2 (t1 + 10) nowIso2 e2 hlt
  · have hge : (60 : Rat) ≤ t1 + 61 - t1 := by linarith
    exact read_loop_step_accept _ line2 (t1 + 61) nowIso2 e2 pd2 hge hp2

/-- C1 witness: concrete two-line scenarios starting from the initial
loop state with the first line arriving at t = 100. -/
theorem C1_sampling_gate_witness :
    (parse_data_line "L1" 1 "T1,1.0").isSome = true ∧
    (parse_data_line "L2" 2 "T2,2.0").isSome = true ∧
    (60 : Rat) ≤ 100 - init_loop_state.last_sample_time ∧
    ((∀ (st2 : LoopState) (l : String) (t : Rat) (nI : String) (nE : Int),
        ((read_loop_step st2 l t nI nE).published).isSome →
          60 ≤ t - st2.last_sample_time) ∧
    (∀ (st2 : LoopState) (l : String) (t : Rat) (nI : String) (nE : Int),
        ¬ 60 ≤ t - st2.last_sample_time →
          read_loop_step st2 l t nI nE = { state := st2, published := none }) ∧
    (∃ pd1 pd2 : TelemetryRecord,
      parse_data_line "L1" 1 "T1,1.0" = some pd1 ∧
      parse_data_line "L2" 2 "T2,2.0" = some pd2 ∧
      read_loop_step init_loop_state "T1,1.0" 100 "L1" 1 =
        { state := { last_sample_time := 100, latest_data := some pd1 }
          published := some pd1 } ∧
      read_loop_step { last_sample_time := 100, latest_data := some pd1 }
          "T2,2.0" (100 + 10) "L2" 2 =
        { state := { last_sample_time := 100, latest_data := some pd1 }
          published := none } ∧
      read_loop_step { last_sample_time := 100, latest_data := some pd1 }
          "T2,2.0" (100 + 61) "L2" 2 =
        { state := { last_sample_time := 100 + 61, latest_data := some pd2 }
          published := some pd2 })) :=
  ⟨by decide, by decide, by norm_num [init_loop_state],
   C1_sampling_gate init_loop_state "T1,1.0" "T2,2.0" "L1" "L2" 1 2 100
     (by decide) (by decide) (by norm_num [init_loop_state])⟩

/-- C2: a channel token (field position i, 1 ≤ i ≤ 7) that is empty or
fails numeric conversion yields value 0.0 at channel i-1 with the
stripped token preserved in raw and the statically bound unit and
description, and the parse as a whole still succeeds. -/
theorem C2_nonnumeric_token (nowIso : String) (nowEpoch : Int) (line : String)
    (i : Nat) (h1 : 1 ≤ i) (h7 : i ≤ 7)
    (hi : i < (pySplitComma (pyStrip line)).length)
    (hbad : pyFloat? (pyStrip ((pySplitComma (pyStrip line)).getD i "")) = none ∨
            pyStrip ((pySplitComma (pyStrip line)).getD i "") = "") :
    ∃ rec, parse_data_line nowIso nowEpoch line = some rec ∧
      rec.vars[i - 1]? =
        some (variable_labels.getD (i - 1) "",
              { value := 0
                unit := variable_units.getD (i - 1) ""
                description := variable_descriptions.getD (i - 1) ""
                raw := pyStrip ((pySplitComma (pyStrip line)).getD i "") }) := by
  have hlab : variable_labels.length = 7 := rfl
  have hlen : ¬ (pySplitComma (pyStrip line)).length < 2 := by omega
  refine ⟨_, parse_data_line_long nowIso nowEpoch line hlen, ?_⟩
  have hi1 : i - 1 < variable_labels.length := by omega
  have hidx : 1 + (i - 1) = i := by omega
  have hgd : (pySplitComma (pyStrip line))[i]? =
      some ((pySplitComma (pyStrip line)).getD i "") := by
    rw [List.getElem?_eq_getElem hi, List.getD_eq_getElem _ _ hi]
  simp only [List.enum, List.getElem?_map, List.getElem?_enumFrom,
    List.getElem?_take_of_lt hi1, List.getElem?_drop, hidx, hgd,
    Nat.zero_add, Option.map_some']
  rw [toMeasurement_zero (i - 1) _ hbad]

/-- C2 witness: the line T1,abc has the non-numeric token abc at field
position 1, and parses to a record with value 0.0 at channel 0. -/
theorem C2_nonnumeric_token_witness :
    ∃ rec, parse_data_line "L" 0 "T1,abc" = some rec ∧
      rec.vars[(1 : Nat) - 1]? =
        some (variable_labels.getD ((1 : Nat) - 1) "",
              { value := 0
                unit := variable_units.getD ((1 : Nat) - 1) ""
                description := variable_descriptions.getD ((1 : Nat) - 1) ""
                raw := pyStrip ((pySplitComma (pyStrip "T1,abc")).getD 1 "") }) :=
  C2_nonnumeric_token "L" 0 "T1,abc" 1 (by decide) (by decide) (by decide)
    (Or.inl (by decide))

/-- C3: a line with fewer than two comma-separated fields fails to parse,
and processing it in the acquisition loop leaves the latest-data slot
unchanged and invokes no callback. -/
theorem C3_insufficient_fields (st : LoopState) (nowIso : String)
    (nowEpoch : Int) (t : Rat) (line : String)
    (h : (pySplitComma (pyStrip line)).length < 2) :
    parse_data_line nowIso nowEpoch line = none ∧
    (read_loop_step st line t nowIso nowEpoch).state.latest_data = st.latest_data ∧
    (read_loop_step st line t nowIso nowEpoch).published = none := by
  have hp := parse_data_line_short nowIso nowEpoch line h
  refine ⟨hp, ?_, ?_⟩
  · by_cases hb : pyStrip line = ""
    · rw [read_loop_step_blank st line t nowIso nowEpoch hb]
    · by_cases hg : 60 ≤ t - st.last_sample_time
      · rw [read_loop_step_parsefail st line t nowIso nowEpoch hb hg hp]
      · rw [read_loop_step_gated st line t nowIso nowEpoch hg]
  · by_cases hb : pyStrip line = ""
    · rw [read_loop_step_blank st line t nowIso nowEpoch hb]
    · by_cases hg : 60 ≤ t - st.last_sample_time
      · rw [read_loop_step_parsefail st line t nowIso nowEpoch hb hg hp]
      · rw [read_loop_step_gated st line t nowIso nowEpoch hg]

/-- C3 witness: the single-field line garbage is rejected and leaves the
initial loop state's slot empty with nothing published. -/
theorem C3_insufficient_fields_witness :
    parse_data_line "L" 0 "garbage" = none ∧
    (read_loop_step init_loop_state "garbage" 100 "L" 0).state.latest_data =
      init_loop_state.latest_data ∧
    (read_loop_step init_loop_state "garbage" 100 "L" 0).published = none :=
  C3_insufficient_fields init_loop_state "L" 0 100 "garbage" (by decide)

/-- C10: with last_sample_time initialised to 0, any line observed at a
wall-clock instant t at least 60 seconds after the epoch passes the
sampling gate, so the first line ever observed is parsed and its parse
outcome published. -/
theorem C10_first_line_passes_gate (t : Rat) (line nowIso : String)
    (nowEpoch : Int) (ht : 60 ≤ t) :
    (read_loop_step init_loop_state line t nowIso nowEpoch).published =
      parse_data_line nowIso nowEpoch line ∧
    60 ≤ t - init_loop_state.last_sample_time := by
  have hg : (60 : Rat) ≤ t - init_loop_state.last_sample_time := by
    show (60 : Rat) ≤ t - 0
    simpa using ht
  refine ⟨?_, hg⟩
  by_cases hb : pyStrip line = ""
  · rw [read_loop_step_blank _ _ _ _ _ hb, parse_data_line_blank _ _ _ hb]
  · cases hp : parse_data_line nowIso nowEpoch line with
    | some pd => rw [read_loop_step_accept _ _ _ _ _ pd hg hp]
    | none => rw [read_loop_step_parsefail _ _ _ _ _ hb hg hp]

/-- C10 witness: a realistic wall-clock arrival instant for the very
first line. -/
theorem C10_first_line_passes_gate_witness :
    (read_loop_step init_loop_state "T,1" 1700000000 "L" 0).published =
      parse_data_line "L" 0 "T,1" ∧
    (60 : Rat) ≤ 1700000000 - init_loop_state.last_sample_time :=
  C10_first_line_passes_gate 1700000000 "T,1" "L" 0 (by norm_num)


/-! Concrete fixtures used by the remaining witnesses. -/

/-- Concrete telemetry record used by witnesses. -/
def sample_record : TelemetryRecord :=
  { device_timestamp := "T0"
    local_timestamp := "L0"
    epoch_timestamp := 0
    vars := [("pH", { value := 7, unit := "pH", description := "pH Level", raw := "7.0" })]
    device_id := "WaterFeature8"
    raw_line := "T0,7.0" }

/-- Bridge state with an empty latest-reading slot and a live broker
link. -/
def bridge_empty : BridgeState :=
  { device_id := "waterfeature8-001", connected_to_aws := true, latest_reading := none }

/-- Bridge state with an empty slot and a broken broker link. -/
def bridge_offline : BridgeState :=
  { device_id := "waterfeature8-001", connected_to_aws := false, latest_reading := none }

/-- Session operations that always succeed. -/
def session_ok : SessionOps :=
  { dev_info := Except.ok (get_device_info "/dev/tty.usbserial-14110" 115200 true)
    dev_send := fun _ => Except.ok true }

/-- Session operations whose calls raise. -/
def session_raising : SessionOps :=
  { dev_info := Except.error "boom"
    dev_send := fun _ => Except.error "boom" }

/-- Open serial connection whose writes succeed. -/
def conn_ok : SerialConn :=
  { is_open := true, write_result := fun _ => Except.ok () }

/-- Serial connection that is no longer open. -/
def conn_closed : SerialConn :=
  { is_open := false, write_result := fun _ => Except.ok () }

/-- C4: a get_reading command with command_id abc yields, when no sample
has been captured, one response echoing abc with status error and
message No recent data available; after a sample has been accepted
through the data callback, the same request yields one response with
status success whose data is that sample. -/
theorem C4_get_reading (ops : SessionOps) (st : BridgeState) (nowIso : String)
    (rec : TelemetryRecord) :
    (st.latest_reading = none →
      handle_command ops st nowIso
          { type? := some "get_reading", command_id? := some "abc", device_command? := none } =
        [{ command_id := "abc", device_id := st.device_id, timestamp := nowIso
           status := "error", message := "No recent data available"
           data := RespData.absent }]) ∧
    handle_command ops ((data_received_callback st rec).1) nowIso
        { type? := some "get_reading", command_id? := some "abc", device_command? := none } =
      [{ command_id := "abc", device_id := st.device_id, timestamp := nowIso
         status := "success", message := "Latest reading retrieved"
         data := RespData.reading rec }] := by
  constructor
  · intro h
    simp [handle_command, handle_command_core, base_response, get_latest_data, h]
  · simp [handle_command, handle_command_core, base_response, get_latest_data,
      data_received_callback]

/-- C4 witness: the round trip at a concrete bridge state, before and
after one accepted sample. -/
theorem C4_get_reading_witness :
    bridge_empty.latest_reading = none ∧
    handle_command session_ok bridge_empty "L"
        { type? := some "get_reading", command_id? := some "abc", device_command? := none } =
      [{ command_id := "abc", device_id := "waterfeature8-001", timestamp := "L"
         status := "error", message := "No recent data available"
         data := RespData.absent }] ∧
    handle_command session_ok ((data_received_callback bridge_empty sample_record).1) "L"
        { type? := some "get_reading", command_id? := some "abc", device_command? := none } =
      [{ command_id := "abc", device_id := "waterfeature8-001", timestamp := "L"
         status := "success", message := "Latest reading retrieved"
         data := RespData.reading sample_record }] :=
  ⟨rfl,
   (C4_get_reading session_ok bridge_empty "L" sample_record).1 rfl,
   (C4_get_reading session_ok bridge_empty "L" sample_record).2⟩

/-- C5: a command whose type is none of get_status, get_reading and
send_device_command yields exactly one response with status error and
message Unknown command, echoing the command identifier with default
unknown when the command_id key is absent. -/
theorem C5_unknown_command (ops : SessionOps) (st : BridgeState) (nowIso : String)
    (cmd : CommandEnvelope)
    (h : cmd.type?.getD "" ≠ "get_status" ∧ cmd.type?.getD "" ≠ "get_reading" ∧
         cmd.type?.getD "" ≠ "send_device_command") :
    handle_command ops st nowIso cmd =
      [{ command_id := cmd.command_id?.getD "unknown", device_id := st.device_id
         timestamp := nowIso, status := "error", message := "Unknown command"
         data := RespData.absent }] := by
  obtain ⟨hs, hr, hd⟩ := h
  simp only [handle_command, handle_command_core, base_response]
  rw [if_neg hs, if_neg hr, if_neg hd]

/-- C5 witness: the frobulate command with no command_id key is answered
with Unknown command under the identifier unknown. -/
theorem C5_unknown_command_witness :
    handle_command session_ok bridge_empty "L"
        { type? := some "frobulate", command_id? := none, device_command? := none } =
      [{ command_id := "unknown", device_id := "waterfeature8-001"
         timestamp := "L", status := "error", message := "Unknown command"
         data := RespData.absent }] :=
  C5_unknown_command session_ok bridge_empty "L"
    { type? := some "frobulate", command_id? := none, device_command? := none }
    ⟨by decide, by decide, by decide⟩

/-- C6: an inbound message whose payload fails to decode produces no
response, and a decodable command whose dispatch raises is caught with no
response either; the dispatch activity always returns normally. -/
theorem C6_malformed_dropped (ops : SessionOps) (st : BridgeState)
    (tc topic nowIso : String) (cmd : CommandEnvelope) (e : String) :
    on_mqtt_message ops st tc topic nowIso (Except.error e) = [] ∧
    (handle_command_core ops st nowIso cmd = Except.error e →
      on_mqtt_message ops st tc topic nowIso (Except.ok cmd) = []) := by
  constructor
  · rfl
  · intro h
    show (if topic = tc then handle_command ops st nowIso cmd else []) = []
    by_cases ht : topic = tc
    · rw [if_pos ht]
      unfold handle_command
      rw [h]
    · rw [if_neg ht]

/-- C6 witness: an undecodable payload, and a get_status command whose
device-info call raises, both produce no response. -/
theorem C6_malformed_dropped_witness :
    on_mqtt_message session_raising bridge_empty "cmdT" "cmdT" "L"
      (Except.error "bad json") = [] ∧
    on_mqtt_message session_raising bridge_empty "cmdT" "cmdT" "L"
      (Except.ok { type? := some "get_status", command_id? := some "x",
                   device_command? := none }) = [] :=
  ⟨(C6_malformed_dropped session_raising bridge_empty "cmdT" "cmdT" "L"
      { type? := some "get_status", command_id? := some "x", device_command? := none }
      "boom").1,
   (C6_malformed_dropped session_raising bridge_empty "cmdT" "cmdT" "L"
      { type? := some "get_status", command_id? := some "x", device_command? := none }
      "boom").2 rfl⟩

/-- C7: on fan-out with a connected broker link the published wire
payload carries exactly the device id, the three timestamps and the
per-channel value, unit and description with raw dropped; with a
disconnected link nothing is published. -/
theorem C7_wire_payload (st : BridgeState) (data : TelemetryRecord) :
    (st.connected_to_aws = true →
      (data_received_callback st data).2 =
        some { device_id := st.device_id
               timestamp := data.local_timestamp
               epoch_timestamp := data.epoch_timestamp
               device_timestamp := data.device_timestamp
               measurements :=
                 data.vars.map
                   (fun p =>
                     (p.1,
                      { value := p.2.value
                        unit := p.2.unit
                        description := p.2.description })) }) ∧
    (st.connected_to_aws = false → (data_received_callback st data).2 = none) := by
  constructor
  · intro h
    simp [data_received_callback, publish_telemetry_data, h]
  · intro h
    simp [data_received_callback, h]

/-- C7 witness: the concrete record is published with raw stripped when
connected and silently dropped when disconnected. -/
theorem C7_wire_payload_witness :
    (data_received_callback bridge_empty sample_record).2 =
      some { device_id := "waterfeature8-001"
             timestamp := "L0"
             epoch_timestamp := 0
             device_timestamp := "T0"
             measurements := [("pH", { value := 7, unit := "pH", description := "pH Level" })] } ∧
    (data_received_callback bridge_offline sample_record).2 = none :=
  ⟨(C7_wire_payload bridge_empty sample_record).1 rfl,
   (C7_wire_payload bridge_offline sample_record).2 rfl⟩

/-- C8: send_command returns false without writing when there is no open
transport, otherwise writes exactly the command text terminated by a
newline and returns true exactly when the transport write succeeds. -/
theorem C8_send_command (c : SerialConn) (command : String) :
    send_command none command = (false, none) ∧
    (c.is_open = false → send_command (some c) command = (false, none)) ∧
    (c.is_open = true →
      (send_command (some c) command).2 = some (command ++ "\n") ∧
      ((send_command (some c) command).1 = true ↔
        ∃ u, c.write_result (command ++ "\n") = Except.ok u)) := by
  refine ⟨rfl, ?_, ?_⟩
  · intro h
    simp [send_command, h]
  · intro h
    cases hw : c.write_result (command ++ "\n") with
    | ok u =>
        constructor
        · simp [send_command, h, hw]
        · simp [send_command, h, hw]
    | error e =>
        constructor
        · simp [send_command, h, hw]
        · simp [send_command, h, hw]

/-- C8 witness: a missing transport and a closed transport return false,
and an open transport with a successful write returns true after writing
the newline-terminated command. -/
theorem C8_send_command_witness :
    send_command none "cal" = (false, none) ∧
    send_command (some conn_closed) "cal" = (false, none) ∧
    (send_command (some conn_ok) "cal").2 = some ("cal" ++ "\n") ∧
    (send_command (some conn_ok) "cal").1 = true :=
  ⟨(C8_send_command conn_ok "cal").1,
   (C8_send_command conn_closed "cal").2.1 rfl,
   ((C8_send_command conn_ok "cal").2.2 rfl).1,
   (((C8_send_command conn_ok "cal").2.2 rfl).2).mpr ⟨(), rfl⟩⟩

/-! Claim C9: aliasing behaviour of the shallow latest-data copy. -/

/-- Mutating a top-level entry of one record dict leaves the view through
any other record address unchanged (fresh top-level objects are
independent at the top level). -/
theorem record_view_set_top_other (h : PyHeap) (x y : Nat) (s : String)
    (hxy : x ≠ y) : record_view (set_top_entry h x s) y = record_view h y := by
  unfold set_top_entry
  cases hx : h.records[x]? with
  | none => rfl
  | some r =>
      unfold record_view
      rw [List.getElem?_set_ne hxy]

/-- C9 counterexample: with one stored record (pH value 7), two
successive get_latest_data copies live at the fresh addresses 1 and 2,
yet after mutating the pH measurement through copy 1 the value read
through copy 2 and through the slot's own record at address 0 has
changed from 7 to 99 — the shallow dict copy of waterFeatLib.py line 154
shares the inner variables dict, so mutating one returned copy does
affect the other copy and the slot, contrary to the claim. -/
theorem C9_shallow_copy_counterexample :
    (get_latest_data_heap slot_example).2 = some 1 ∧
    (get_latest_data_heap (get_latest_data_heap slot_example).1).2 = some 2 ∧
    read_nested_value
      (get_latest_data_heap (get_latest_data_heap slot_example).1).1.heap 2 "pH" =
      some 7 ∧
    read_nested_value
      (set_nested_value
        (get_latest_data_heap (get_latest_data_heap slot_example).1).1.heap
        1 "pH" 99) 2 "pH" = some 99 ∧
    read_nested_value
      (set_nested_value
        (get_latest_data_heap (get_latest_data_heap slot_example).1).1.heap
        1 "pH" 99) 0 "pH" = some 99 := by
  decide

/-- C9 amended: two get_latest_data calls without an intervening sample
return structurally equal copies whose top-level dicts are fresh objects
(addresses distinct from each other and from the slot's record), so a
top-level mutation of one copy affects neither the other copy's view nor
the slot's; the copies however share the slot record's inner variables
dict reference, because dict.copy() is shallow (nested mutation is
therefore visible through all three, as the counterexample shows). -/
theorem C9_get_latest_copies (st : SlotState) (a : Nat)
    (hs : st.latest_data = some a) (ha : a < st.heap.records.length) :
    ∃ (r : RecordObj) (a1 a2 : Nat) (h2 : PyHeap),
      st.heap.records[a]? = some r ∧
      a1 ≠ a2 ∧ a1 ≠ a ∧ a2 ≠ a ∧
      (get_latest_data_heap st).2 = some a1 ∧
      (get_latest_data_heap (get_latest_data_heap st).1).2 = some a2 ∧
      (get_latest_data_heap (get_latest_data_heap st).1).1.heap = h2 ∧
      h2.records[a1]? = some r ∧
      h2.records[a2]? = some r ∧
      h2.records[a]? = some r ∧
      record_view h2 a1 = record_view h2 a2 ∧
      record_view h2 a1 = record_view h2 a ∧
      (∀ s, record_view (set_top_entry h2 a1 s) a2 = record_view h2 a2) ∧
      (∀ s, record_view (set_top_entry h2 a1 s) a = record_view h2 a) ∧
      (h2.records[a1]?).map RecordObj.variablesRef =
        (h2.records[a]?).map RecordObj.variablesRef := by
  have hr : st.heap.records[a]? = some st.heap.records[a] :=
    List.getElem?_eq_getElem ha
  have e1 : get_latest_data_heap st =
      ({ heap := { records := st.heap.records ++ [st.heap.records[a]]
                   varDicts := st.heap.varDicts
                   measObjs := st.heap.measObjs }
         latest_data := some a }, some st.heap.records.length) := by
    simp only [get_latest_data_heap, copy_record, hs, hr]
  have hra : (st.heap.records ++ [st.heap.records[a]])[a]? =
      some st.heap.records[a] := by
    rw [List.getElem?_append_left ha]
    exact hr
  have e2 : get_latest_data_heap (get_latest_data_heap st).1 =
      ({ heap := { records :=
                     (st.heap.records ++ [st.heap.records[a]]) ++ [st.heap.records[a]]
                   varDicts := st.heap.varDicts
                   measObjs := st.heap.measObjs }
         latest_data := some a }, some (st.heap.records.length + 1)) := by
    rw [e1]
    simp only [get_latest_data_heap, copy_record, hra, List.length_append,
      List.length_singleton]
  have ea1 : ((st.heap.records ++ [st.heap.records[a]]) ++ [st.heap.records[a]])[st.heap.records.length]? =
      some st.heap.records[a] := by
    rw [List.getElem?_append_left (by simp)]
    exact List.getElem?_concat_length _ _
  have ea2 : ((st.heap.records ++ [st.heap.records[a]]) ++ [st.heap.records[a]])[st.heap.records.length + 1]? =
      some st.heap.records[a] := by
    rw [List.getElem?_append_right (by simp)]
    simp
  have ea : ((st.heap.records ++ [st.heap.records[a]]) ++ [st.heap.records[a]])[a]? =
      some st.heap.records[a] := by
    rw [List.getElem?_append_left (by simp; omega), List.getElem?_append_left ha]
    exact hr
  refine ⟨st.heap.records[a], st.heap.records.length, st.heap.records.length + 1,
          { records := (st.heap.records ++ [st.heap.records[a]]) ++ [st.heap.records[a]]
            varDicts := st.heap.varDicts
            measObjs := st.heap.measObjs },
          hr, by omega, by omega, by omega, ?_, ?_, ?_, ea1, ea2, ea, ?_, ?_, ?_, ?_, ?_⟩
  · rw [e1]
  · rw [e2]
  · rw [e2]
  · unfold record_view
    rw [ea1, ea2]
  · unfold record_view
    rw [ea1, ea]
  · intro s
    exact record_view_set_top_other _ _ _ s (by omega)
  · intro s
    exact record_view_set_top_other _ _ _ s (by omega)
  · rw [ea1, ea]

/-- C9 amended witness: the amended copy semantics at the concrete
one-record slot state. -/
theorem C9_get_latest_copies_witness :
    ∃ (r : RecordObj) (a1 a2 : Nat) (h2 : PyHeap),
      slot_example.heap.records[0]? = some r ∧
      a1 ≠ a2 ∧ a1 ≠ 0 ∧ a2 ≠ 0 ∧
      (get_latest_data_heap slot_example).2 = some a1 ∧
      (get_latest_data_heap (get_latest_data_heap slot_example).1).2 = some a2 ∧
      (get_latest_data_heap (get_latest_data_heap slot_example).1).1.heap = h2 ∧
      h2.records[a1]? = some r ∧
      h2.records[a2]? = some r ∧
      h2.records[0]? = some r ∧
      record_view h2 a1 = record_view h2 a2 ∧
      record_view h2 a1 = record_view h2 0 ∧
      (∀ s, record_view (set_top_entry h2 a1 s) a2 = record_view h2 a2) ∧
      (∀ s, record_view (set_top_entry h2 a1 s) 0 = record_view h2 0) ∧
      (h2.records[a1]?).map RecordObj.variablesRef =
        (h2.records[0]?).map RecordObj.variablesRef :=
  C9_get_latest_copies slot_example 0 rfl (by decide)
